import Mathlib

/-
  Verification of the face-detection pipeline of the Photo-App backend
  (backend/src/peopleDetector.js and the faces:detect route of
  backend/src/index.js).  Floating-point numbers are embedded as exact
  rationals; JS Math.round and Math.floor become jsRound and Int.floor.
-/

namespace PhotoApp

/-- JS Math.round: rounds half away from zero toward positive infinity,
which equals floor of x + 1/2 for every non-NaN input. -/
def jsRound (x : ℚ) : ℤ := Int.floor (x + 1/2)

/-- Substring test on character lists, used to embed the regular-expression
name sniffing of the decoder. -/
def containsSub (hay pat : List Char) : Bool :=
  match hay with
  | [] => pat.isEmpty
  | _ :: t => pat.isPrefixOf hay || containsSub t pat

/-- Case-insensitive substring test on strings. -/
def strContainsLower (hay pat : String) : Bool :=
  containsSub (hay.data.map Char.toLower) (pat.data.map Char.toLower)

/-- Embeds the test of the regular expression matching score in any case
(peopleDetector.js line 88). -/
def matchesScore (n : String) : Bool := strContainsLower n "score"

/-- Embeds the test of the regular expression matching bbox or boxes in any
case (peopleDetector.js line 89). -/
def matchesBbox (n : String) : Bool :=
  strContainsLower n "bbox" || strContainsLower n "boxes"

/-- Letterbox parameters computed by detectFacesScrfd, lines 69 to 74. -/
structure LetterboxParams where
  scale : ℚ
  newW : ℤ
  newH : ℤ
  padX : ℤ
  padY : ℤ
deriving DecidableEq

/-- Embeds lines 69 to 74 of peopleDetector.js: the letterbox geometry for
an image of the given dimensions, target size 640. origW and origH embed
meta.width and meta.height after the JS fallback to 0. -/
def letterbox (origW origH : ℕ) : LetterboxParams :=
  let target : ℚ := 640
  let scale : ℚ := min (target / max 1 (origW : ℚ)) (target / max 1 (origH : ℚ))
  let newW : ℤ := max 1 (jsRound ((origW : ℚ) * scale))
  let newH : ℤ := max 1 (jsRound ((origH : ℚ) * scale))
  let padX : ℤ := Int.floor ((target - (newW : ℚ)) / 2)
  let padY : ℤ := Int.floor ((target - (newH : ℚ)) / 2)
  ⟨scale, newW, newH, padX, padY⟩

/-- A decoded candidate box in original-image coordinates
(peopleDetector.js line 125). -/
structure Candidate where
  left : ℚ
  top : ℚ
  width : ℚ
  height : ℚ
  score : ℚ
deriving DecidableEq

/-- Embeds one iteration of the decoding loop, lines 100 to 125 of
peopleDetector.js: the candidate produced at tensor index i, or none when
the score is below 0.3 or the clamped box is degenerate.  List.getD embeds
the JS index fallback (missing entries read as 0 via the nullish
coalescing at line 101, and are in range for the bbox reads). -/
def candAt (scores bboxes : List ℚ) (p : LetterboxParams) (origW origH : ℕ)
    (i : ℕ) : Option Candidate :=
  let s := scores.getD i 0
  if s < 3/10 then none
  else
    let x1 := bboxes.getD (i * 4) 0
    let y1 := bboxes.getD (i * 4 + 1) 0
    let x2 := bboxes.getD (i * 4 + 2) 0
    let y2 := bboxes.getD (i * 4 + 3) 0
    let lx := min x1 x2
    let ly := min y1 y2
    let rx := max x1 x2
    let bot := max y1 y2
    let sc : ℚ := if p.scale = 0 then 1 else p.scale
    let left0 := (lx - (p.padX : ℚ)) / sc
    let top0 := (ly - (p.padY : ℚ)) / sc
    let right0 := (rx - (p.padX : ℚ)) / sc
    let bottom0 := (bot - (p.padY : ℚ)) / sc
    let left := max 0 (min left0 (origW : ℚ))
    let top := max 0 (min top0 (origH : ℚ))
    let right := max 0 (min right0 (origW : ℚ))
    let bottom := max 0 (min bottom0 (origH : ℚ))
    let w := max 0 (right - left)
    let h := max 0 (bottom - top)
    if w ≤ 1 ∨ h ≤ 1 then none
    else some ⟨left, top, w, h, s⟩

/-- Embeds the for loop of lines 100 to 127: d counts the remaining
indices, i is the current index, acc the accumulated candidates; the loop
pushes each produced candidate and stops as soon as 150 are accumulated. -/
def decodeLoop (f : ℕ → Option Candidate) : ℕ → ℕ → List Candidate → List Candidate
  | 0, _, acc => acc
  | d + 1, i, acc =>
    match f i with
    | none => decodeLoop f d (i + 1) acc
    | some c =>
      let acc' := acc ++ [c]
      if 150 ≤ acc'.length then acc' else decodeLoop f d (i + 1) acc'

/-- Embeds lines 98 to 128 of peopleDetector.js: decode all candidates from
the first score head and first bbox head, n = floor of the bbox data length
over 4. -/
def decodeCandidates (scores bboxes : List ℚ) (p : LetterboxParams)
    (origW origH : ℕ) : List Candidate :=
  decodeLoop (candAt scores bboxes p origW origH) (bboxes.length / 4) 0 []

/-- Embeds getScrfd, lines 9 to 15: when the model file is missing the
function throws a distinct error naming the path; otherwise the session is
created. -/
def getScrfd (modelFileExists : Bool) (modelPath : String) : Except String Unit :=
  if modelFileExists then Except.ok ()
  else Except.error ("SCRFD model not found at " ++ modelPath)

/-- Embeds checkModelsHealth, lines 33 to 40: none means ok true, some m
means ok false with the error message m. -/
def checkModelsHealth (modelFileExists : Bool) (modelPath : String) : Option String :=
  match getScrfd modelFileExists modelPath with
  | Except.ok _ => none
  | Except.error m => some m

/-- The environment a run of detectFacesScrfd observes: whether the model
loads, whether sharp can read the image, whether inference succeeds, the
image dimensions after the JS fallback to 0, and the named output tensors
of the model in key order. -/
structure ScrfdEnv where
  modelOk : Bool
  imageOk : Bool
  runOk : Bool
  origW : ℕ
  origH : ℕ
  outputs : List (String × List ℚ)
deriving DecidableEq

/-- Embeds detectFacesScrfd, lines 62 to 133: any thrown error (model load,
image read, inference) is caught and yields the empty list; unrecognized
output-head names yield the empty list (lines 91 to 93); otherwise the
candidates are decoded from the first matching score and bbox heads. -/
def detectFacesScrfd (e : ScrfdEnv) : List Candidate :=
  if e.modelOk && e.imageOk && e.runOk then
    match e.outputs.filter (fun t => matchesScore t.1),
          e.outputs.filter (fun t => matchesBbox t.1) with
    | st :: _, bt :: _ =>
      decodeCandidates st.2 bt.2 (letterbox e.origW e.origH) e.origW e.origH
    | _, _ => []
  else []

/-- A box of detectPeopleInImage after rounding (lines 140 to 146). -/
structure IntBox where
  left : ℤ
  top : ℤ
  width : ℤ
  height : ℤ
  score : ℚ
deriving DecidableEq

/-- The result object of detectPeopleInImage (lines 139 to 152). -/
structure DetectResult where
  boxes : List IntBox
  imageWidth : ℕ
  imageHeight : ℕ
deriving DecidableEq

/-- Embeds the box mapping at lines 140 to 146 of peopleDetector.js. -/
def roundBox (c : Candidate) : IntBox :=
  ⟨jsRound c.left, jsRound c.top, jsRound c.width, jsRound c.height, c.score⟩

/-- Embeds detectPeopleInImage, lines 135 to 153: when sharp cannot read
the image the catch branch returns empty boxes and zero dimensions;
otherwise the decoded boxes are rounded and the true dimensions reported
(detectFacesScrfd itself never throws). -/
def detectPeopleInImage (e : ScrfdEnv) : DetectResult :=
  if e.imageOk then
    ⟨(detectFacesScrfd e).map roundBox, e.origW, e.origH⟩
  else ⟨[], 0, 0⟩

/-- A persisted row of the faces table as written by the detect route
(index.js lines 982 to 987). -/
structure FaceRow where
  photoId : ℕ
  left : ℚ
  top : ℚ
  width : ℚ
  height : ℚ
  score : ℚ
deriving DecidableEq

/-- Embeds the INSERT at index.js lines 983 to 986 for one candidate. -/
def mkFaceRow (pid : ℕ) (c : Candidate) : FaceRow :=
  ⟨pid, c.left, c.top, c.width, c.height, c.score⟩

/-- The observable HTTP response of the detect route: status code, error
message when present, count, and the persisted items echoed back. -/
structure ApiResponse where
  status : ℕ
  error : Option String
  count : ℕ
  items : List FaceRow
deriving DecidableEq

/-- Outcome of the Promise.race at index.js lines 968 to 971: either the
timeout sentinel wins or detection returns its boxes. -/
inductive DetectRace where
  | timeout : DetectRace
  | result : List Candidate → DetectRace
deriving DecidableEq

/-- Whether some INSERT of the transaction fails: ins gives the index of
the first failing INSERT when one fails. -/
def insertFailureAt (ins : Option ℕ) (len : ℕ) : Bool :=
  match ins with
  | some k => decide (k < len)
  | none => false

/-- Embeds the faces:detect route, index.js lines 954 to 1000: 404 when
the photo row or file is missing, 504 with an explicit timeout error and no
writes when the race times out, 500 with a rollback (database unchanged)
when an INSERT fails, and otherwise a commit appending one row per box. -/
def detectHandler (photoExists fileExists : Bool) (race : DetectRace)
    (ins : Option ℕ) (pid : ℕ) (db : List FaceRow) :
    ApiResponse × List FaceRow :=
  if !photoExists then (⟨404, some "Photo not found", 0, []⟩, db)
  else if !fileExists then (⟨404, some "Image file not found on server", 0, []⟩, db)
  else
    match race with
    | DetectRace.timeout => (⟨504, some "Detection timeout", 0, []⟩, db)
    | DetectRace.result boxes =>
      if insertFailureAt ins boxes.length then
        (⟨500, some "Detection failed", 0, []⟩, db)
      else
        let rows := boxes.map (mkFaceRow pid)
        (⟨200, none, rows.length, rows⟩, db ++ rows)

/-- Intersection area of two candidate boxes, used to state the
suppression property of the spec. -/
def interArea (a b : Candidate) : ℚ :=
  let xo := max 0 (min (a.left + a.width) (b.left + b.width) - max a.left b.left)
  let yo := max 0 (min (a.top + a.height) (b.top + b.height) - max a.top b.top)
  xo * yo

/-- Intersection over union of two candidate boxes, the metric of the
suppression guarantee stated by the spec. -/
def iou (a b : Candidate) : ℚ :=
  let i := interArea a b
  let u := a.width * a.height + b.width * b.height - i
  if u = 0 then 0 else i / u

/-- Modelled from the spec: the preprocessor scale formula
min of T over width and T over height, for positive dimensions. -/
def specScale (w h : ℕ) : ℚ := min (640 / (w : ℚ)) (640 / (h : ℚ))

/-- Modelled from the spec: the new-width formula round of scale times
width, with no lower bound, for comparison with the code. -/
def specNewW (w h : ℕ) : ℤ := jsRound ((w : ℚ) * specScale w h)

/-- A run whose model outputs hold two identical above-threshold boxes:
both are returned, so their IoU is 1. -/
def envDup : ScrfdEnv :=
  ⟨true, true, true, 640, 640,
   [("score_8", [9/10, 9/10]), ("bbox_8", [0, 0, 100, 100, 0, 0, 100, 100])]⟩

/-- The candidate decoded twice from envDup. -/
def cDup : Candidate := ⟨0, 0, 100, 100, 9/10⟩

/-- Score tensor with 151 above-threshold entries, the last one highest. -/
def scoresCap : List ℚ := List.replicate 150 (1/2) ++ [9/10]

/-- Bbox tensor with the same box repeated 151 times. -/
def bboxesCap : List ℚ := List.flatten (List.replicate 151 [10, 10, 200, 200])

/-- A run with 151 above-threshold candidates where the last has the top
score: the decoder keeps the first 150 in index order and drops it. -/
def envCap : ScrfdEnv :=
  ⟨true, true, true, 640, 640, [("score_8", scoresCap), ("bbox_8", bboxesCap)]⟩

/-- The low-scoring candidate repeated 150 times in envCap. -/
def cLow : Candidate := ⟨10, 10, 190, 190, 1/2⟩

/-- The top-scoring candidate of envCap, sitting at index 150. -/
def cHigh : Candidate := ⟨10, 10, 190, 190, 9/10⟩

/-- A 10 by 10 image whose single decoded box rounds past the right edge. -/
def envRound : ScrfdEnv :=
  ⟨true, true, true, 10, 10, [("score_8", [9/10]), ("bbox_8", [32, 0, 640, 640])]⟩

/-- The raw candidate decoded from envRound. -/
def cRound : Candidate := ⟨1/2, 0, 19/2, 10, 9/10⟩

/-- A run whose model exposes no recognizable score or bbox head. -/
def envBadHeads : ScrfdEnv :=
  ⟨true, true, true, 640, 640, [("foo", [1, 2, 3])]⟩

/-- The run of envDup but with the model failing to load. -/
def envNoModel : ScrfdEnv :=
  ⟨false, true, true, 640, 640,
   [("score_8", [9/10, 9/10]), ("bbox_8", [0, 0, 100, 100, 0, 0, 100, 100])]⟩

/-- A successful run that genuinely finds zero faces: all scores below the
confidence threshold. -/
def envZeroFaces : ScrfdEnv :=
  ⟨true, true, true, 640, 640, [("score_8", [1/10]), ("bbox_8", [0, 0, 100, 100])]⟩

/-- A readable 10 by 10 image whose detector fails to load. -/
def envDetectorFail : ScrfdEnv :=
  ⟨false, true, true, 10, 10, [("score_8", [9/10]), ("bbox_8", [0, 0, 640, 640])]⟩

/-- An unreadable image: sharp throws on reading the metadata. -/
def envMetaFail : ScrfdEnv := ⟨true, false, true, 10, 10, []⟩

/-- The zero-face success response of the detect route, for comparison with
the timeout response. -/
def zeroFaceResponse : ApiResponse := ⟨200, none, 0, []⟩

/-- The decoding loop returns the accumulator followed by the next
candidates produced in index order, truncated when 150 are accumulated. -/
theorem decodeLoop_eq_take (f : ℕ → Option Candidate) :
    ∀ (d i : ℕ) (acc : List Candidate), acc.length < 150 →
      decodeLoop f d i acc =
        acc ++ (((List.range' i d).filterMap f).take (150 - acc.length)) := by
  intro d
  induction d with
  | zero => intro i acc h; simp [decodeLoop]
  | succ d ih =>
    intro i acc h
    rw [List.range'_succ, List.filterMap_cons]
    cases hfi : f i with
    | none =>
      simp only [decodeLoop, hfi]
      exact ih (i + 1) acc h
    | some c =>
      simp only [decodeLoop, hfi]
      by_cases hlen : 150 ≤ (acc ++ [c]).length
      · have h149 : acc.length = 149 := by
          simp only [List.length_append, List.length_singleton] at hlen
          omega
        have ht : 150 - acc.length = 1 := by omega
        rw [if_pos hlen, ht, List.take_succ_cons, List.take_zero]
      · simp only [if_neg hlen]
        have hlt : (acc ++ [c]).length < 150 := by omega
        rw [ih (i + 1) (acc ++ [c]) hlt]
        have ht : 150 - acc.length = (150 - (acc ++ [c]).length) + 1 := by
          simp only [List.length_append, List.length_singleton]
          omega
        rw [ht, List.take_succ_cons]
        simp

/-- The decoder output is the first 150 candidates produced in tensor index
order: no sorting and no suppression take place. -/
theorem decodeCandidates_eq (scores bboxes : List ℚ) (p : LetterboxParams)
    (origW origH : ℕ) :
    decodeCandidates scores bboxes p origW origH =
      ((List.range (bboxes.length / 4)).filterMap
        (candAt scores bboxes p origW origH)).take 150 := by
  rw [decodeCandidates, decodeLoop_eq_take _ _ 0 [] (by norm_num),
    List.range_eq_range']
  simp

/-- The decoder never returns more than 150 candidates. -/
theorem decodeCandidates_length_le (scores bboxes : List ℚ)
    (p : LetterboxParams) (origW origH : ℕ) :
    (decodeCandidates scores bboxes p origW origH).length ≤ 150 := by
  rw [decodeCandidates_eq, List.length_take]
  exact min_le_left _ _

/-- Every decoded candidate is produced by candAt at some tensor index. -/
theorem mem_decodeCandidates {scores bboxes : List ℚ} {p : LetterboxParams}
    {origW origH : ℕ} {c : Candidate}
    (hc : c ∈ decodeCandidates scores bboxes p origW origH) :
    ∃ i < bboxes.length / 4, candAt scores bboxes p origW origH i = some c := by
  rw [decodeCandidates_eq] at hc
  have hm := List.take_subset _ _ hc
  rw [List.mem_filterMap] at hm
  obtain ⟨i, hi, hfi⟩ := hm
  exact ⟨i, List.mem_range.mp hi, hfi⟩

/-- Clamping into the interval from 0 to W keeps the left edge and the
extent within bounds. -/
theorem clampBounds (l0 r0 W : ℚ) (hW : 0 ≤ W) :
    0 ≤ max 0 (min l0 W) ∧
    max 0 (min l0 W) + max 0 (max 0 (min r0 W) - max 0 (min l0 W)) ≤ W ∧
    0 ≤ max 0 (max 0 (min r0 W) - max 0 (min l0 W)) := by
  have hL : max 0 (min l0 W) ≤ W := max_le hW (min_le_right _ _)
  have hR : max 0 (min r0 W) ≤ W := max_le hW (min_le_right _ _)
  refine ⟨le_max_left _ _, ?_, le_max_left _ _⟩
  rcases max_choice 0 (max 0 (min r0 W) - max 0 (min l0 W)) with h | h <;>
    rw [h] <;> linarith

/-- Every candidate produced by candAt is clamped into the original image
bounds and has nonnegative extent. -/
theorem candAt_bounds {scores bboxes : List ℚ} {p : LetterboxParams}
    {origW origH : ℕ} {i : ℕ} {c : Candidate}
    (h : candAt scores bboxes p origW origH i = some c) :
    0 ≤ c.left ∧ 0 ≤ c.top ∧ c.left + c.width ≤ (origW : ℚ) ∧
      c.top + c.height ≤ (origH : ℚ) ∧ 0 ≤ c.width ∧ 0 ≤ c.height := by
  simp only [candAt] at h
  split at h
  · exact absurd h (by simp)
  · split at h
    all_goals
      split at h
      · exact absurd h (by simp)
      · rw [Option.some_inj] at h
        subst h
        refine ⟨le_max_left _ _, le_max_left _ _, ?_, ?_, le_max_left _ _,
          le_max_left _ _⟩
        · exact (clampBounds _ _ _ (Nat.cast_nonneg _)).2.1
        · exact (clampBounds _ _ _ (Nat.cast_nonneg _)).2.1

/-- jsRound of a nonnegative rational is nonnegative. -/
theorem jsRound_nonneg {x : ℚ} (hx : 0 ≤ x) : 0 ≤ jsRound x := by
  rw [jsRound]
  exact Int.floor_nonneg.mpr (by linarith)

/-- Rounding the two edges of a box adds at most one pixel to the sum. -/
theorem jsRound_add_le {x y : ℚ} {W : ℕ} (hxy : x + y ≤ (W : ℚ)) :
    jsRound x + jsRound y ≤ (W : ℤ) + 1 := by
  have ha := Int.floor_le (x + 1/2)
  have hb := Int.floor_le (y + 1/2)
  have h : ((jsRound x + jsRound y : ℤ) : ℚ) ≤ ((W : ℤ) : ℚ) + 1 := by
    rw [jsRound, jsRound]
    push_cast
    push_cast at ha hb
    linarith
  exact_mod_cast h

/-- Every candidate returned by detectFacesScrfd lies within the original
image bounds. -/
theorem detect_mem_bounds {e : ScrfdEnv} {c : Candidate}
    (hc : c ∈ detectFacesScrfd e) :
    0 ≤ c.left ∧ 0 ≤ c.top ∧ c.left + c.width ≤ (e.origW : ℚ) ∧
      c.top + c.height ≤ (e.origH : ℚ) ∧ 0 ≤ c.width ∧ 0 ≤ c.height := by
  unfold detectFacesScrfd at hc
  split at hc
  · split at hc
    · obtain ⟨i, _, hi⟩ := mem_decodeCandidates hc
      exact candAt_bounds hi
    · exact absurd hc (by simp)
  · exact absurd hc (by simp)

/-- The letterbox geometry of a square 640 by 640 image. -/
theorem lb640 : letterbox 640 640 = ⟨1, 640, 640, 0, 0⟩ := by
  norm_num [letterbox, jsRound]

/-- The letterbox geometry of a square 10 by 10 image. -/
theorem lb10 : letterbox 10 10 = ⟨64, 640, 640, 0, 0⟩ := by
  norm_num [letterbox, jsRound]

/-- The first candidate of envDup decodes to cDup. -/
theorem candDup0 :
    candAt [9/10, 9/10] [0, 0, 100, 100, 0, 0, 100, 100] ⟨1, 640, 640, 0, 0⟩
      640 640 0 = some cDup := by
  norm_num [candAt, cDup]

/-- The second candidate of envDup decodes to cDup as well. -/
theorem candDup1 :
    candAt [9/10, 9/10] [0, 0, 100, 100, 0, 0, 100, 100] ⟨1, 640, 640, 0, 0⟩
      640 640 1 = some cDup := by
  norm_num [candAt, cDup]

/-- The run on envDup returns the same box twice: no suppression occurs. -/
theorem detDup : detectFacesScrfd envDup = [cDup, cDup] := by
  have h1 : matchesScore "score_8" = true := by decide
  have h2 : matchesScore "bbox_8" = false := by decide
  have h3 : matchesBbox "score_8" = false := by decide
  have h4 : matchesBbox "bbox_8" = true := by decide
  simp only [detectFacesScrfd, envDup, List.filter, h1, h2, h3, h4]
  norm_num [decodeCandidates, decodeLoop, lb640, candDup0, candDup1]

/-- Two identical boxes have IoU one. -/
theorem iouDup : iou cDup cDup = 1 := by
  norm_num [iou, interArea, cDup]

/-- A run whose model fails to load returns the empty list. -/
theorem detNoModel : detectFacesScrfd envNoModel = [] := by
  simp [detectFacesScrfd, envNoModel]

/-- A genuine zero-face run returns the empty list as well. -/
theorem detZeroFaces : detectFacesScrfd envZeroFaces = [] := by
  have h1 : matchesScore "score_8" = true := by decide
  have h2 : matchesScore "bbox_8" = false := by decide
  have h3 : matchesBbox "score_8" = false := by decide
  have h4 : matchesBbox "bbox_8" = true := by decide
  simp only [detectFacesScrfd, envZeroFaces, List.filter, h1, h2, h3, h4]
  norm_num [decodeCandidates, decodeLoop, candAt]

/-- A run with unrecognized output-head names returns the empty list. -/
theorem detBadHeads : detectFacesScrfd envBadHeads = [] := by
  have h1 : matchesScore "foo" = false := by decide
  have h2 : matchesBbox "foo" = false := by decide
  simp [detectFacesScrfd, envBadHeads, List.filter, h1, h2]

/-- The run on envRound decodes the single candidate cRound. -/
theorem detRound : detectFacesScrfd envRound = [cRound] := by
  have h1 : matchesScore "score_8" = true := by decide
  have h2 : matchesScore "bbox_8" = false := by decide
  have h3 : matchesBbox "score_8" = false := by decide
  have h4 : matchesBbox "bbox_8" = true := by decide
  simp only [detectFacesScrfd, envRound, List.filter, h1, h2, h3, h4]
  rw [show letterbox 10 10 = ⟨64, 640, 640, 0, 0⟩ from lb10]
  have hc : candAt [9/10] [32, 0, 640, 640] ⟨64, 640, 640, 0, 0⟩ 10 10 0 =
      some cRound := by
    norm_num [candAt, cRound]
  norm_num [decodeCandidates, decodeLoop, hc]

/-- The public interface rounds the envRound candidate past the image
border: left 1 and width 10 on a 10-pixel-wide photo. -/
theorem peopleRound :
    detectPeopleInImage envRound = ⟨[⟨1, 0, 10, 10, 9/10⟩], 10, 10⟩ := by
  simp only [detectPeopleInImage, detRound,
    show envRound.imageOk = true from rfl,
    show envRound.origW = 10 from rfl, show envRound.origH = 10 from rfl,
    if_true]
  norm_num [roundBox, jsRound, cRound, Int.floor_eq_iff]

/-- A readable image whose detector fails yields the true dimensions with
an empty box list. -/
theorem peopleDetectorFail : detectPeopleInImage envDetectorFail = ⟨[], 10, 10⟩ := by
  simp [detectPeopleInImage, detectFacesScrfd, envDetectorFail]

/-- An unreadable image yields zero dimensions with an empty box list. -/
theorem peopleMetaFail : detectPeopleInImage envMetaFail = ⟨[], 0, 0⟩ := by
  simp [detectPeopleInImage, envMetaFail]

/-- Reading the capped score tensor below index 150 yields one half. -/
theorem scoresCap_getD_lt {i : ℕ} (hi : i < 150) : scoresCap.getD i 0 = 1/2 := by
  rw [scoresCap, List.getD_eq_getElem?_getD, List.getElem?_append,
    List.length_replicate, if_pos hi, List.getElem?_replicate, if_pos hi]
  rfl

/-- Reading the capped score tensor at index 150 yields the top score. -/
theorem scoresCap_getD_150 : scoresCap.getD 150 0 = 9/10 := by
  rw [scoresCap, List.getD_eq_getElem?_getD, List.getElem?_append,
    List.length_replicate, if_neg (by omega)]
  rfl

/-- Indexing into a flattened replication of a four-element block. -/
theorem flat4_getElem (a b c d : ℚ) (m : ℕ) :
    ∀ j : ℕ, (List.flatten (List.replicate m [a, b, c, d]))[j]? =
      if j < 4 * m then some ([a, b, c, d].getD (j % 4) 0) else none := by
  induction m with
  | zero => intro j; simp
  | succ m ih =>
    intro j
    rw [List.replicate_succ, List.flatten_cons, List.getElem?_append]
    by_cases hj : j < 4
    · rw [if_pos (by simpa using hj), if_pos (by omega)]
      interval_cases j <;> rfl
    · rw [if_neg (by simpa using hj)]
      simp only [List.length_cons, List.length_nil]
      rw [ih (j - 4)]
      have h4 : (j - 4) % 4 = j % 4 := by omega
      by_cases h1 : j - 4 < 4 * m
      · rw [if_pos h1, if_pos (by omega), h4]
      · rw [if_neg h1, if_neg (by omega)]

/-- The capped bbox tensor has 604 entries, so 151 candidate slots. -/
theorem bboxesCap_length : bboxesCap.length = 604 := by
  rw [bboxesCap, List.length_flatten, List.map_replicate]
  rw [List.sum_replicate, smul_eq_mul]
  rfl

/-- Decoding the capped tensors yields the half-score box below index 150
and the top-score box at index 150. -/
theorem candCap {i : ℕ} (hi : i ≤ 150) :
    candAt scoresCap bboxesCap ⟨1, 640, 640, 0, 0⟩ 640 640 i =
      some (if i < 150 then cLow else cHigh) := by
  have hx1 : bboxesCap.getD (i * 4) 0 = 10 := by
    rw [bboxesCap, List.getD_eq_getElem?_getD, flat4_getElem, if_pos (by omega),
      show (i * 4) % 4 = 0 by omega]
    rfl
  have hx2 : bboxesCap.getD (i * 4 + 1) 0 = 10 := by
    rw [bboxesCap, List.getD_eq_getElem?_getD, flat4_getElem, if_pos (by omega),
      show (i * 4 + 1) % 4 = 1 by omega]
    rfl
  have hx3 : bboxesCap.getD (i * 4 + 2) 0 = 200 := by
    rw [bboxesCap, List.getD_eq_getElem?_getD, flat4_getElem, if_pos (by omega),
      show (i * 4 + 2) % 4 = 2 by omega]
    rfl
  have hx4 : bboxesCap.getD (i * 4 + 3) 0 = 200 := by
    rw [bboxesCap, List.getD_eq_getElem?_getD, flat4_getElem, if_pos (by omega),
      show (i * 4 + 3) % 4 = 3 by omega]
    rfl
  by_cases h : i < 150
  · rw [if_pos h]
    simp only [candAt, hx1, hx2, hx3, hx4, scoresCap_getD_lt h]
    norm_num [cLow]
  · have h150 : i = 150 := by omega
    subst h150
    rw [if_neg h]
    simp only [candAt, hx1, hx2, hx3, hx4, scoresCap_getD_150]
    norm_num [cHigh]

/-- When a function produces a candidate at every element of a list, its
filterMap is the corresponding map. -/
theorem filterMap_eq_mapOf {α β : Type} (f : α → Option β) (g : α → β) :
    ∀ l : List α, (∀ a ∈ l, f a = some (g a)) → l.filterMap f = l.map g := by
  intro l
  induction l with
  | nil => simp
  | cons a t ih =>
    intro h
    rw [List.filterMap_cons, h a (by simp), List.map_cons,
      ih (fun x hx => h x (by simp [hx]))]

/-- The 151 capped candidates in index order: 150 half-score boxes then the
top-score one. -/
theorem capList :
    (List.range 151).filterMap
        (candAt scoresCap bboxesCap ⟨1, 640, 640, 0, 0⟩ 640 640) =
      List.replicate 150 cLow ++ [cHigh] := by
  rw [filterMap_eq_mapOf _ (fun i => if i < 150 then cLow else cHigh) _
    (fun i hi => candCap (by have := List.mem_range.mp hi; omega))]
  rw [show (151 : ℕ) = 150 + 1 from rfl, List.range_succ, List.map_append,
    List.map_singleton]
  have hmap : List.map (fun i => if i < 150 then cLow else cHigh)
      (List.range 150) = List.replicate 150 cLow := by
    refine List.eq_replicate_iff.mpr ⟨by simp, ?_⟩
    intro b hb
    simp only [List.mem_map, List.mem_range] at hb
    obtain ⟨i, hi, rfl⟩ := hb
    exact if_pos hi
  rw [hmap, if_neg (by omega)]

/-- The run on envCap returns the first 150 candidates in index order and
drops the higher-scoring candidate at index 150. -/
theorem detCap : detectFacesScrfd envCap = List.replicate 150 cLow := by
  have h1 : matchesScore "score_8" = true := by decide
  have h2 : matchesScore "bbox_8" = false := by decide
  have h3 : matchesBbox "score_8" = false := by decide
  have h4 : matchesBbox "bbox_8" = true := by decide
  simp only [detectFacesScrfd, envCap, List.filter, h1, h2, h3, h4]
  rw [decodeCandidates_eq, lb640, show bboxesCap.length / 4 = 151 by
    rw [bboxesCap_length], capList]
  have ht := List.take_left (List.replicate 150 cLow) [cHigh]
  rw [List.length_replicate] at ht
  exact ht

/-- The dropped top-score candidate is not among the 150 returned ones. -/
theorem cHigh_not_mem : cHigh ∉ List.replicate 150 cLow := by
  norm_num [List.mem_replicate, cHigh, cLow]

/-- The score-head filter of envDup selects the score tensor. -/
theorem filterScoreDup :
    envDup.outputs.filter (fun t => matchesScore t.1) =
      [("score_8", [9/10, 9/10])] := by
  have h1 : matchesScore "score_8" = true := by decide
  have h2 : matchesScore "bbox_8" = false := by decide
  simp [envDup, List.filter, h1, h2]

/-- The bbox-head filter of envDup selects the bbox tensor. -/
theorem filterBboxDup :
    envDup.outputs.filter (fun t => matchesBbox t.1) =
      [("bbox_8", [0, 0, 100, 100, 0, 0, 100, 100])] := by
  have h3 : matchesBbox "score_8" = false := by decide
  have h4 : matchesBbox "bbox_8" = true := by decide
  simp [envDup, List.filter, h3, h4]

/-- The score-head filter of envBadHeads selects nothing. -/
theorem filterScoreBad :
    envBadHeads.outputs.filter (fun t => matchesScore t.1) = [] := by
  have h1 : matchesScore "foo" = false := by decide
  simp [envBadHeads, List.filter, h1]

/-- With an empty boxes list no insert can fail. -/
theorem insertFailureAt_zero (ins : Option ℕ) : insertFailureAt ins 0 = false := by
  cases ins <;> simp [insertFailureAt]

/-- C1: the spec claims any two boxes returned by the Suppressor have IoU
at most the NMS threshold 0.4, with score-ordered greedy acceptance.  The
code has no suppression stage: the run on envDup returns the same box
twice, and their IoU is 1, far above the threshold. -/
theorem nms_iou_counterexample :
    detectFacesScrfd envDup = [cDup, cDup] ∧ iou cDup cDup = 1 ∧
      ¬(iou cDup cDup ≤ 2/5) := by
  refine ⟨detDup, iouDup, ?_⟩
  rw [iouDup]
  norm_num

/-- C1 (amended): the decoder applies no IoU-based suppression: whenever
the above-threshold non-degenerate candidates number at most 150, every one
of them is returned, regardless of its overlap with other returned boxes. -/
theorem no_suppression_in_decoder (scores bboxes : List ℚ)
    (p : LetterboxParams) (origW origH : ℕ) (i : ℕ) (c : Candidate)
    (hlen : ((List.range (bboxes.length / 4)).filterMap
        (candAt scores bboxes p origW origH)).length ≤ 150)
    (hi : i < bboxes.length / 4)
    (hc : candAt scores bboxes p origW origH i = some c) :
    c ∈ decodeCandidates scores bboxes p origW origH := by
  rw [decodeCandidates_eq, List.take_of_length_le hlen]
  exact List.mem_filterMap.mpr ⟨i, List.mem_range.mpr hi, hc⟩

/-- C1 witness: the duplicate candidate of envDup is returned even though
an identical box is returned as well. -/
theorem no_suppression_in_decoder_witness :
    cDup ∈ decodeCandidates [9/10, 9/10] [0, 0, 100, 100, 0, 0, 100, 100]
      ⟨1, 640, 640, 0, 0⟩ 640 640 :=
  no_suppression_in_decoder _ _ _ _ _ 0 cDup
    (le_trans (List.length_filterMap_le _ _) (by simp))
    (by decide) candDup0

/-- C2: the spec claims that with more than 150 above-threshold candidates
the decoder keeps the 150 highest-scoring ones, sorted descending.  On
envCap the code drops the unique top-scoring candidate, which sits at
tensor index 150, while returning 150 lower-scoring ones. -/
theorem cap_not_highest_counterexample :
    detectFacesScrfd envCap = List.replicate 150 cLow ∧
    candAt scoresCap bboxesCap ⟨1, 640, 640, 0, 0⟩ 640 640 150 = some cHigh ∧
    ¬cHigh.score < 3/10 ∧
    cHigh ∉ detectFacesScrfd envCap ∧
    cLow ∈ detectFacesScrfd envCap ∧
    cLow.score < cHigh.score := by
  refine ⟨detCap, ?_, ?_, ?_, ?_, ?_⟩
  · rw [candCap le_rfl, if_neg (by omega)]
  · norm_num [cHigh]
  · rw [detCap]; exact cHigh_not_mem
  · rw [detCap]; exact List.mem_replicate.mpr ⟨by omega, rfl⟩
  · norm_num [cLow, cHigh]

/-- C2 (amended): the decoder returns exactly the first 150 candidates in
tensor index order that pass the score and size checks — no sorting by
score happens, so higher-scoring candidates past the cap are dropped. -/
theorem decoder_truncation_first150 (e : ScrfdEnv) (st bt : String × List ℚ)
    (h1 : e.modelOk = true) (h2 : e.imageOk = true) (h3 : e.runOk = true)
    (hs : (e.outputs.filter (fun t => matchesScore t.1)).head? = some st)
    (hb : (e.outputs.filter (fun t => matchesBbox t.1)).head? = some bt) :
    detectFacesScrfd e =
      ((List.range (bt.2.length / 4)).filterMap
        (candAt st.2 bt.2 (letterbox e.origW e.origH) e.origW e.origH)).take
        150 := by
  unfold detectFacesScrfd
  rw [h1, h2, h3]
  cases hfs : e.outputs.filter (fun t => matchesScore t.1) with
  | nil => rw [hfs] at hs; exact absurd hs (by simp)
  | cons a l =>
    cases hfb : e.outputs.filter (fun t => matchesBbox t.1) with
    | nil => rw [hfb] at hb; exact absurd hb (by simp)
    | cons b m =>
      rw [hfs] at hs
      rw [hfb] at hb
      simp only [List.head?_cons, Option.some_inj] at hs hb
      subst hs
      subst hb
      simp only [if_true]
      exact decodeCandidates_eq _ _ _ _ _

/-- C2 witness: on envDup the decoder output equals the first-150
truncation of the candidates decoded from its two head tensors. -/
theorem decoder_truncation_first150_witness :
    detectFacesScrfd envDup =
      ((List.range ((("bbox_8", [0, 0, 100, 100, 0, 0, 100, 100]) :
          String × List ℚ).2.length / 4)).filterMap
        (candAt (("score_8", [9/10, 9/10]) : String × List ℚ).2
          (("bbox_8", [0, 0, 100, 100, 0, 0, 100, 100]) : String × List ℚ).2
          (letterbox envDup.origW envDup.origH) envDup.origW
          envDup.origH)).take 150 :=
  decoder_truncation_first150 envDup ("score_8", [9/10, 9/10])
    ("bbox_8", [0, 0, 100, 100, 0, 0, 100, 100]) rfl rfl rfl
    (by simp [filterScoreDup]) (by simp [filterBboxDup])

/-- C3: a timeout of the detection race yields the 504 response with the
explicit timeout error, zero count, no items and an unchanged faces table;
that response differs from the zero-face success response; and on every
path the faces table is either unchanged or extended by exactly one row per
returned box, never partially written. -/
theorem timeout_signal_and_atomicity (ins : Option ℕ) (pid : ℕ)
    (db : List FaceRow) :
    (detectHandler true true DetectRace.timeout ins pid db).1 =
      ⟨504, some "Detection timeout", 0, []⟩ ∧
    (detectHandler true true DetectRace.timeout ins pid db).2 = db ∧
    (detectHandler true true (DetectRace.result []) ins pid db).1 =
      zeroFaceResponse ∧
    (detectHandler true true DetectRace.timeout ins pid db).1 ≠
      zeroFaceResponse ∧
    (∀ (pe fe : Bool) (race : DetectRace),
      (detectHandler pe fe race ins pid db).2 = db ∨
      ∃ boxes, race = DetectRace.result boxes ∧
        (detectHandler pe fe race ins pid db).2 =
          db ++ boxes.map (mkFaceRow pid)) := by
  refine ⟨rfl, rfl, ?_, ?_, ?_⟩
  · simp [detectHandler, insertFailureAt_zero, zeroFaceResponse]
  · simp [detectHandler, zeroFaceResponse]
  · intro pe fe race
    cases pe with
    | false => left; simp [detectHandler]
    | true =>
      cases fe with
      | false => left; simp [detectHandler]
      | true =>
        cases race with
        | timeout => left; rfl
        | result boxes =>
          by_cases hf : insertFailureAt ins boxes.length = true
          · left; simp [detectHandler, hf]
          · right
            exact ⟨boxes, rfl, by
              simp only [Bool.not_eq_true] at hf
              simp [detectHandler, hf]⟩

/-- C4: the spec claims every returned box satisfies left + width at most
the image width, both raw and after rounding.  On envRound the public
interface returns a rounded box with left 1 and width 10 on a photo of
width 10, exceeding the border by one pixel. -/
theorem bbox_rounding_counterexample :
    (detectPeopleInImage envRound).boxes = [⟨1, 0, 10, 10, 9/10⟩] ∧
    (detectPeopleInImage envRound).imageWidth = 10 ∧
    ¬((1 : ℤ) + 10 ≤ ((detectPeopleInImage envRound).imageWidth : ℤ)) := by
  rw [peopleRound]
  norm_num

/-- C4 (amended): every raw decoded candidate is clamped inside the image
bounds, and every rounded box of the public interface stays within those
bounds extended by one pixel on the right and bottom. -/
theorem bbox_bounds (e : ScrfdEnv) :
    (∀ c ∈ detectFacesScrfd e,
      0 ≤ c.left ∧ 0 ≤ c.top ∧ c.left + c.width ≤ (e.origW : ℚ) ∧
        c.top + c.height ≤ (e.origH : ℚ)) ∧
    (∀ rb ∈ (detectPeopleInImage e).boxes,
      0 ≤ rb.left ∧ 0 ≤ rb.top ∧ rb.left + rb.width ≤ (e.origW : ℤ) + 1 ∧
        rb.top + rb.height ≤ (e.origH : ℤ) + 1) := by
  constructor
  · intro c hc
    have h := detect_mem_bounds hc
    exact ⟨h.1, h.2.1, h.2.2.1, h.2.2.2.1⟩
  · intro rb hrb
    unfold detectPeopleInImage at hrb
    split at hrb
    · simp only [List.mem_map] at hrb
      obtain ⟨c, hc, rfl⟩ := hrb
      have h := detect_mem_bounds hc
      simp only [roundBox]
      exact ⟨jsRound_nonneg h.1, jsRound_nonneg h.2.1,
        jsRound_add_le h.2.2.1, jsRound_add_le h.2.2.2.1⟩
    · exact absurd hrb (by simp)

/-- C4 witness: the bounds hold for the raw candidate and the rounded box
returned on envRound. -/
theorem bbox_bounds_witness :
    (0 ≤ cRound.left ∧ 0 ≤ cRound.top ∧
      cRound.left + cRound.width ≤ (envRound.origW : ℚ) ∧
      cRound.top + cRound.height ≤ (envRound.origH : ℚ)) ∧
    (0 ≤ (⟨1, 0, 10, 10, 9/10⟩ : IntBox).left ∧
      0 ≤ (⟨1, 0, 10, 10, 9/10⟩ : IntBox).top ∧
      (⟨1, 0, 10, 10, 9/10⟩ : IntBox).left +
          (⟨1, 0, 10, 10, 9/10⟩ : IntBox).width ≤ (envRound.origW : ℤ) + 1 ∧
      (⟨1, 0, 10, 10, 9/10⟩ : IntBox).top +
          (⟨1, 0, 10, 10, 9/10⟩ : IntBox).height ≤ (envRound.origH : ℤ) + 1) :=
  ⟨(bbox_bounds envRound).1 cRound (by simp [detRound]),
   (bbox_bounds envRound).2 ⟨1, 0, 10, 10, 9/10⟩ (by simp [peopleRound])⟩

/-- C5: every detection run returns at most 150 candidates, both from the
decoder and at the public interface. -/
theorem detection_count_cap (e : ScrfdEnv) :
    (detectFacesScrfd e).length ≤ 150 ∧
      (detectPeopleInImage e).boxes.length ≤ 150 := by
  have h : (detectFacesScrfd e).length ≤ 150 := by
    unfold detectFacesScrfd
    split
    · split
      · exact decodeCandidates_length_le _ _ _ _ _
      · simp
    · simp
  refine ⟨h, ?_⟩
  unfold detectPeopleInImage
  split
  · simpa using h
  · simp

/-- C6: the spec claims the new size is round of scale times width, but the
code additionally bounds it below by one: on a 1 by 1281 image the spec
formula gives 0 while the code computes 1. -/
theorem spec_newsize_counterexample :
    specNewW 1 1281 = 0 ∧ (letterbox 1 1281).newW = 1 ∧
      specNewW 1 1281 ≠ (letterbox 1 1281).newW := by
  have h1 : specNewW 1 1281 = 0 := by
    norm_num [specNewW, specScale, jsRound, min_def, Int.floor_eq_iff]
  have h2 : (letterbox 1 1281).newW = 1 := by
    norm_num [letterbox, jsRound, min_def, max_def, Int.floor_eq_iff]
  refine ⟨h1, h2, ?_⟩
  rw [h1, h2]
  norm_num

/-- C6 (amended): for positive dimensions the preprocessor computes scale
as the minimum of 640 over width and 640 over height, the new size as the
rounded scaled size bounded below by one, and the symmetric padding as half
the remaining space rounded down; all values are a deterministic function
of the input dimensions. -/
theorem letterbox_formulas (w h : ℕ) (hw : 0 < w) (hh : 0 < h) :
    (letterbox w h).scale = min (640 / (w : ℚ)) (640 / (h : ℚ)) ∧
    (letterbox w h).newW = max 1 (jsRound ((w : ℚ) * (letterbox w h).scale)) ∧
    (letterbox w h).newH = max 1 (jsRound ((h : ℚ) * (letterbox w h).scale)) ∧
    (letterbox w h).padX =
      Int.floor ((640 - ((letterbox w h).newW : ℚ)) / 2) ∧
    (letterbox w h).padY =
      Int.floor ((640 - ((letterbox w h).newH : ℚ)) / 2) := by
  have hmw : max 1 ((w : ℚ)) = (w : ℚ) :=
    max_eq_right (by exact_mod_cast hw)
  have hmh : max 1 ((h : ℚ)) = (h : ℚ) :=
    max_eq_right (by exact_mod_cast hh)
  simp [letterbox, hmw, hmh]

/-- C6 witness: the formulas hold for a 2 by 4 image. -/
theorem letterbox_formulas_witness :
    (0 < 2 ∧ 0 < 4) ∧
    ((letterbox 2 4).scale = min (640 / ((2 : ℕ) : ℚ)) (640 / ((4 : ℕ) : ℚ)) ∧
     (letterbox 2 4).newW =
       max 1 (jsRound (((2 : ℕ) : ℚ) * (letterbox 2 4).scale)) ∧
     (letterbox 2 4).newH =
       max 1 (jsRound (((4 : ℕ) : ℚ) * (letterbox 2 4).scale)) ∧
     (letterbox 2 4).padX =
       Int.floor ((640 - ((letterbox 2 4).newW : ℚ)) / 2) ∧
     (letterbox 2 4).padY =
       Int.floor ((640 - ((letterbox 2 4).newH : ℚ)) / 2)) :=
  ⟨⟨by decide, by decide⟩, letterbox_formulas 2 4 (by decide) (by decide)⟩

/-- C7: the spec claims a missing detector model is surfaced distinctly to
the caller rather than conflated with zero detections.  A run whose model
fails to load returns exactly the zero-detection result: the same empty
list as a genuine zero-face run, even though loading the model on the same
outputs would have produced detections. -/
theorem model_missing_conflated_counterexample :
    detectFacesScrfd envNoModel = [] ∧
    detectFacesScrfd envZeroFaces = [] ∧
    detectFacesScrfd envNoModel = detectFacesScrfd envZeroFaces ∧
    detectFacesScrfd envDup ≠ [] ∧
    envDup = { envNoModel with modelOk := true } := by
  refine ⟨detNoModel, detZeroFaces, by rw [detNoModel, detZeroFaces], ?_, rfl⟩
  rw [detDup]
  simp

/-- C7 (amended): getScrfd reports the missing model file as a distinct
thrown error naming the path, and checkModelsHealth surfaces that message;
but detectFacesScrfd absorbs the failure and returns the empty candidate
list, indistinguishable from zero detections at its own interface. -/
theorem detector_unavailable_signal :
    (∀ p, getScrfd false p =
      Except.error ("SCRFD model not found at " ++ p)) ∧
    (∀ p, checkModelsHealth false p =
      some ("SCRFD model not found at " ++ p)) ∧
    (∀ e : ScrfdEnv, e.modelOk = false → detectFacesScrfd e = []) := by
  refine ⟨fun p => by simp [getScrfd], fun p => by simp [checkModelsHealth, getScrfd], ?_⟩
  intro e he
  simp [detectFacesScrfd, he]

/-- C7 witness: the missing-model error for the default path, and the
absorbed empty result on envNoModel. -/
theorem detector_unavailable_signal_witness :
    getScrfd false "models/scrfd_person_2.5g.onnx" =
      Except.error
        ("SCRFD model not found at " ++ "models/scrfd_person_2.5g.onnx") ∧
    envNoModel.modelOk = false ∧ detectFacesScrfd envNoModel = [] :=
  ⟨detector_unavailable_signal.1 "models/scrfd_person_2.5g.onnx", rfl,
   detector_unavailable_signal.2.2 envNoModel rfl⟩

/-- C8: when the output tensors expose no recognizable score head or no
recognizable bbox head, the decoder yields zero candidates; the embedding
is a total function, reflecting that the try-catch never lets an exception
past the decoder boundary. -/
theorem unrecognized_heads_empty (e : ScrfdEnv)
    (h : e.outputs.filter (fun t => matchesScore t.1) = [] ∨
         e.outputs.filter (fun t => matchesBbox t.1) = []) :
    detectFacesScrfd e = [] := by
  unfold detectFacesScrfd
  split
  · rcases h with h | h
    · rw [h]
    · rw [h]
      cases e.outputs.filter (fun t => matchesScore t.1) <;> rfl
  · rfl

/-- C8 witness: the run on envBadHeads, whose only tensor is named foo,
returns zero candidates. -/
theorem unrecognized_heads_empty_witness :
    (envBadHeads.outputs.filter (fun t => matchesScore t.1) = [] ∨
     envBadHeads.outputs.filter (fun t => matchesBbox t.1) = []) ∧
    detectFacesScrfd envBadHeads = [] :=
  ⟨Or.inl filterScoreBad,
   unrecognized_heads_empty envBadHeads (Or.inl filterScoreBad)⟩

/-- C9: the claim states every internal failure yields boxes with zero
dimensions.  A readable image whose detector fails returns the true
dimensions 10 by 10 with an empty box list, not the zero-dimension
result. -/
theorem failure_result_counterexample :
    detectPeopleInImage envDetectorFail = ⟨[], 10, 10⟩ ∧
    envDetectorFail.modelOk = false ∧
    envDetectorFail.imageOk = true ∧
    detectPeopleInImage envDetectorFail ≠ ⟨[], 0, 0⟩ := by
  refine ⟨peopleDetectorFail, rfl, rfl, ?_⟩
  rw [peopleDetectorFail]
  simp

/-- C9 (amended): detectPeopleInImage is total; an unreadable image yields
empty boxes with zero dimensions, while a readable image always carries its
true dimensions and a detector failure yields empty boxes with those true
dimensions — indistinguishable from a genuine zero-face result. -/
theorem detectPeople_total_shapes (e : ScrfdEnv) :
    (e.imageOk = false → detectPeopleInImage e = ⟨[], 0, 0⟩) ∧
    (e.imageOk = true →
      (detectPeopleInImage e).imageWidth = e.origW ∧
      (detectPeopleInImage e).imageHeight = e.origH ∧
      (e.modelOk = false →
        detectPeopleInImage e = ⟨[], e.origW, e.origH⟩)) := by
  constructor
  · intro h
    simp [detectPeopleInImage, h]
  · intro h
    refine ⟨by simp [detectPeopleInImage, h], by simp [detectPeopleInImage, h], ?_⟩
    intro hm
    simp [detectPeopleInImage, detectFacesScrfd, h, hm]

/-- C9 witness: the two failure shapes realized on concrete runs. -/
theorem detectPeople_total_shapes_witness :
    detectPeopleInImage envMetaFail = ⟨[], 0, 0⟩ ∧
    detectPeopleInImage envDetectorFail =
      ⟨[], envDetectorFail.origW, envDetectorFail.origH⟩ :=
  ⟨(detectPeople_total_shapes envMetaFail).1 rfl,
   ((detectPeople_total_shapes envDetectorFail).2 rfl).2.2 rfl⟩

/-- C10: a successful detect run appends one row per box to the faces
table, leaving prior rows in place; running it twice appends the same rows
twice, so the faces store accumulates duplicates and the operation is not
idempotent. -/
theorem detect_insert_only (db : List FaceRow) (pid : ℕ)
    (boxes : List Candidate) :
    (detectHandler true true (DetectRace.result boxes) none pid db).2 =
      db ++ boxes.map (mkFaceRow pid) ∧
    (detectHandler true true (DetectRace.result boxes) none pid
        ((detectHandler true true (DetectRace.result boxes) none pid db).2)).2 =
      db ++ boxes.map (mkFaceRow pid) ++ boxes.map (mkFaceRow pid) ∧
    ((detectHandler true true (DetectRace.result boxes) none pid
        ((detectHandler true true (DetectRace.result boxes) none pid
          db).2)).2).length = db.length + 2 * boxes.length := by
  refine ⟨by simp [detectHandler, insertFailureAt], ?_, ?_⟩
  · simp [detectHandler, insertFailureAt]
  · simp [detectHandler, insertFailureAt]
    omega

/-- C3 witness: the timeout response realized on an empty faces table. -/
theorem timeout_signal_and_atomicity_witness :
    (detectHandler true true DetectRace.timeout none 1 []).1 =
      ⟨504, some "Detection timeout", 0, []⟩ ∧
    (detectHandler true true DetectRace.timeout none 1 []).2 = [] ∧
    (detectHandler true true (DetectRace.result []) none 1 []).1 =
      zeroFaceResponse ∧
    (detectHandler true true DetectRace.timeout none 1 []).1 ≠
      zeroFaceResponse :=
  ⟨(timeout_signal_and_atomicity none 1 []).1,
   (timeout_signal_and_atomicity none 1 []).2.1,
   (timeout_signal_and_atomicity none 1 []).2.2.1,
   (timeout_signal_and_atomicity none 1 []).2.2.2.1⟩

/-- C5 witness: the cap realized on the duplicate-box run. -/
theorem detection_count_cap_witness :
    (detectFacesScrfd envDup).length ≤ 150 ∧
      (detectPeopleInImage envDup).boxes.length ≤ 150 :=
  detection_count_cap envDup

/-- C10 witness: two runs on one box duplicate its row. -/
theorem detect_insert_only_witness :
    (detectHandler true true (DetectRace.result [cDup]) none 1 []).2 =
      [] ++ [cDup].map (mkFaceRow 1) ∧
    (detectHandler true true (DetectRace.result [cDup]) none 1
        ((detectHandler true true (DetectRace.result [cDup]) none 1 []).2)).2 =
      [] ++ [cDup].map (mkFaceRow 1) ++ [cDup].map (mkFaceRow 1) ∧
    ((detectHandler true true (DetectRace.result [cDup]) none 1
        ((detectHandler true true (DetectRace.result [cDup]) none 1
          []).2)).2).length = ([] : List FaceRow).length + 2 * [cDup].length :=
  detect_insert_only [] 1 [cDup]

end PhotoApp
